import Mathlib

/-!
Shallow embedding of `src/chrome/chromeDebugAdapter.ts` (the core of the
vscode-chrome-debug-core debug adapter bridge), together with proofs about the
behaviour claimed in the specification.  Each definition mirrors the structure
of the corresponding TypeScript function; external collaborators (the CDP
connection, the transformer pipeline, the container expansion code from
variables.ts, and small utilities that are not part of the sources) are
modelled as oracle parameters or, where the spec describes them, as
definitions marked "Modelled from the spec".
-/

/-- A JavaScript primitive value, as carried in a CDP RemoteObject `value` field. -/
inductive JsVal where
  | str (s : String)
  | num (n : Int)
  | bool (b : Bool)
deriving DecidableEq

/-- Model of the builtin JSON.stringify on primitive values (escaping of special
characters inside strings is not exercised by the adapter logic we verify). -/
def jsonStringify : JsVal → String
  | .str s => "\x22" ++ s ++ "\x22"
  | .num n => toString n
  | .bool b => if b then "true" else "false"

/-- Coercion of a primitive to the string slot of a DAP variable when the caller
opted out of JSON-stringification (the TypeScript assigns the raw value). -/
def jsValToString : JsVal → String
  | .str s => s
  | .num n => toString n
  | .bool b => if b then "true" else "false"

/-- JavaScript truthiness of an optional string (undefined and the empty string
are falsy). -/
def jsTruthyOptStr : Option String → Bool
  | some v => v != ""
  | none => false

/-- JavaScript truthiness of an optional array combined with a length check,
as in `x && x.length`. -/
def jsTruthyStrList : Option (List String) → Bool
  | some (_ :: _) => true
  | _ => false

/-- Model of `String.prototype.startsWith`. -/
def jsStartsWith (s pre : String) : Bool :=
  pre.data.isPrefixOf s.data

/-- Index of the first occurrence of `pat` in a list, as in `String.prototype.indexOf`. -/
def listIndexOfSub (pat : List Char) : List Char → Option Nat
  | [] => if pat.isEmpty then some 0 else none
  | c :: rest =>
    if pat.isPrefixOf (c :: rest) then some 0
    else (listIndexOfSub pat rest).map (· + 1)

/-- Model of `String.prototype.indexOf` for a substring pattern, returning none
when the pattern does not occur (the TypeScript tests `indexOf >= 0`). -/
def strIndexOfSub (s pat : String) : Option Nat :=
  listIndexOfSub pat.data s.data

/-- Model of `String.prototype.substring(0, n)` (take the first n characters). -/
def strTakeChars (s : String) (n : Nat) : String :=
  ⟨s.data.take n⟩

/-- Modelled from the spec: utils.lstrip (utils.ts is not part of the sources)
removes the given leading text when present. -/
def lstrip (s strip : String) : String :=
  if jsStartsWith s strip then ⟨s.data.drop strip.length⟩ else s

/-- Model of node path.basename: the last `/`-separated component. -/
def basename (p : String) : String :=
  match (p.splitOn "/").getLast? with
  | some x => x
  | none => p

/-- Modelled from the spec: a handle registry lender (vscode-debugadapter
`Handles` and utils.ReverseHandles are external to the sources).  It issues
monotonically increasing nonzero integer ids for inserted values; `get`
returns the value or absent; `reset` empties it. -/
structure HandleMap (α : Type) where
  nextHandle : Nat
  entries : List (Nat × α)
deriving DecidableEq

/-- A fresh (or freshly reset) handle registry: ids start at the nonzero start handle. -/
def HandleMap.empty {α : Type} : HandleMap α := ⟨1, []⟩

/-- Insert a value, returning its newly minted id and the updated registry. -/
def HandleMap.create {α : Type} (h : HandleMap α) (v : α) : Nat × HandleMap α :=
  (h.nextHandle, ⟨h.nextHandle + 1, (h.nextHandle, v) :: h.entries⟩)

/-- Look a handle up, returning the stored value or absent. -/
def HandleMap.get {α : Type} (h : HandleMap α) (id : Nat) : Option α :=
  (h.entries.find? (fun e => e.1 == id)).map (·.2)

/-- Well-formedness of a handle registry: every issued id is below the next
handle to be issued (true of every reachable registry). -/
def handleMapWF {α : Type} (h : HandleMap α) : Prop :=
  ∀ e ∈ h.entries, e.1 < h.nextHandle

instance {α : Type} (h : HandleMap α) : Decidable (handleMapWF h) :=
  List.decidableBAll _ h.entries

/-- Association-list model of a JavaScript Map keyed by strings: `get`. -/
def mapGet {α : Type} (m : List (String × α)) (k : String) : Option α :=
  (m.find? (fun e => e.1 == k)).map (·.2)

/-- Association-list model of a JavaScript Map keyed by strings: `set` replaces
any previous binding of the key. -/
def mapSet {α : Type} (m : List (String × α)) (k : String) (v : α) : List (String × α) :=
  (k, v) :: m.filter (fun e => e.1 != k)

/-- Association-list model of a JavaScript Map keyed by strings: `has`. -/
def mapHas {α : Type} (m : List (String × α)) (k : String) : Bool :=
  (m.find? (fun e => e.1 == k)).isSome

/-- Number of bindings a key has in the association list (at most one in any
map produced by `mapSet`). -/
def countKey {α : Type} (m : List (String × α)) (k : String) : Nat :=
  (m.filter (fun e => e.1 == k)).length

/-- Settled result of an asynchronous computation: fulfilled or rejected. -/
inductive POutcome (α : Type) where
  | ok (v : α)
  | err (msg : String)
deriving DecidableEq

/-- Modelled from the spec: a settled promise is its settle time (duration of
the work, in milliseconds) together with its outcome.  The concurrency model
of the spec is single-threaded cooperative, so this timing abstraction is all
the timeout logic observes. -/
structure Promise (α : Type) where
  time : Nat
  outcome : POutcome α
deriving DecidableEq

/-- An already-resolved unit promise, as produced by `Promise.resolve()`. -/
def resolvedUnitPromise : Promise Unit := ⟨0, .ok ()⟩

/-- Modelled from the spec: utils.promiseTimeout (utils.ts is not part of the
sources) passes the promise through when it settles within the bound and
otherwise rejects with the given message at the bound. -/
def promiseTimeout {α : Type} (p : Promise α) (timeoutMs : Nat) (msg : String) : Promise α :=
  if p.time ≤ timeoutMs then p else ⟨timeoutMs, .err msg⟩

/-- Sequencing `q.then(fun _ => p)`: a rejected `q` short-circuits, otherwise the
durations accumulate and the outcome is that of `p`. -/
def promiseSeq {α : Type} (q : Promise Unit) (p : Promise α) : Promise α :=
  match q.outcome with
  | .err m => ⟨q.time, .err m⟩
  | .ok _ => ⟨q.time + p.time, p.outcome⟩

/-- The queue update `p.catch(fun _ => undefined)`: errors are swallowed. -/
def promiseSwallow {α : Type} (p : Promise α) : Promise Unit :=
  ⟨p.time, .ok ()⟩

/-- A CDP Debugger.Location. -/
structure BpLocation where
  scriptId : String
  lineNumber : Nat
  columnNumber : Nat
deriving DecidableEq

/-- A CDP Debugger call frame (the fields the adapter reads). -/
structure CallFrame where
  callFrameId : String
  functionName : String
  location : BpLocation
deriving DecidableEq

/-- A property of a CDP object preview. -/
structure PropertyPreview where
  name : String
  value : Option String
deriving DecidableEq

/-- A CDP object preview. -/
structure ObjectPreview where
  overflow : Bool
  properties : List PropertyPreview
deriving DecidableEq

/-- A CDP Runtime.RemoteObject (the fields the adapter reads). -/
structure RemoteObject where
  type : String
  subtype : Option String := none
  value : Option JsVal := none
  description : Option String := none
  objectId : Option String := none
  preview : Option ObjectPreview := none
deriving DecidableEq

/-- A CDP Debugger.paused notification. -/
structure PausedEvent where
  callFrames : List CallFrame
  reason : String
  data : Option RemoteObject := none
  hitBreakpoints : Option (List String) := none
deriving DecidableEq

/-- A CDP Debugger.scriptParsed notification (the fields the adapter reads);
`url` is the empty string when the runtime sent no URL. -/
structure ScriptParsedEvent where
  scriptId : String
  url : String
  sourceMapURL : Option String := none
deriving DecidableEq

/-- A reference to a source/script stored in the source handle registry
(ISourceContainer in the sources). -/
structure SourceContainer where
  scriptId : Option String := none
  contents : Option String := none
  mappedPath : Option String := none
deriving DecidableEq

/-- Modelled from the spec: the variable container variants of variables.ts
(not part of the sources): property containers, scope containers and the
synthetic exception container. -/
inductive VariableContainer where
  | property (objectId : Option String)
  | scope (callFrameId : String) (scopeIndex : Option Nat) (objectId : Option String)
  | exceptionValue (obj : Option RemoteObject)
deriving DecidableEq

/-- A DAP SourceBreakpoint from a setBreakpoints request. -/
structure SourceBreakpoint where
  line : Nat
  column : Option Nat := none
  condition : Option String := none
deriving DecidableEq

/-- A DAP Source descriptor of a setBreakpoints request. -/
structure DapSource where
  path : Option String := none
  sourceReference : Option Nat := none
deriving DecidableEq

/-- The arguments of a DAP setBreakpoints request. -/
structure SetBreakpointsArgs where
  source : DapSource
  breakpoints : List SourceBreakpoint
deriving DecidableEq

/-- A DAP Breakpoint as placed into a setBreakpoints response or a Breakpoint
event. -/
structure Breakpoint where
  id : Option Nat := none
  verified : Bool
  line : Option Nat := none
  column : Option Nat := none
  message : Option String := none
deriving DecidableEq

/-- The body of a DAP setBreakpoints response. -/
structure SetBreakpointsResponseBody where
  breakpoints : List Breakpoint
deriving DecidableEq

/-- A pending setBreakpoints request stored until its script is parsed
(IPendingBreakpoint in the sources). -/
structure PendingBreakpoint where
  args : SetBreakpointsArgs
  ids : List Nat
deriving DecidableEq

/-- A CDP Debugger.setBreakpoint response, to which setBreakpointByUrl
responses are also normalized; the swallowed-error case is the response with
neither field present (the empty object of the sources). -/
structure SetBreakpointResponse where
  breakpointId : Option String := none
  actualLocation : Option BpLocation := none
deriving DecidableEq

/-- A DAP Variable (the fields the adapter produces). -/
structure Variable where
  name : String
  value : Option String
  variablesReference : Nat
  type : Option String := none
  indexedVariables : Option Nat := none
  namedVariables : Option Nat := none
deriving DecidableEq

/-- The body of a DAP variables response (its single field is called
`variables` in the sources, a reserved word here). -/
structure VariablesBody where
  vars : List Variable
deriving DecidableEq

/-- The body of a DAP setVariable response. -/
structure SetVariableBody where
  value : String
deriving DecidableEq

/-- A DAP StackFrame as produced by callFrameToStackFrame (source fields inlined). -/
structure StackFrame where
  id : Nat
  name : String
  sourceName : Option String
  sourcePath : Option String
  sourceReference : Option Nat
  line : Nat
  column : Nat
deriving DecidableEq

/-- Modelled from the spec: the typed domain errors of errors.ts (not part of
the sources). -/
inductive DebugError where
  | pathFormatErr
  | portRequired
  | setValueNotSupported
  | sourceRequestIllegalHandle
  | completionsStackFrameNotValid
  | errorFromEvaluate (msg : String)
deriving DecidableEq

/-- The CDP command whose completion the adapter stores in currentStep. -/
inductive CdpStepCommand where
  | resume
  | stepOver
  | stepInto
  | stepOutOf
  | pauseTarget
deriving DecidableEq

/-- The CDP breakpoint-setting request issued by addBreakpoints for one
requested breakpoint. -/
inductive CdpBpRequest where
  | setBreakpoint (scriptId : String) (lineNumber columnNumber : Nat) (condition : Option String)
  | setBreakpointByUrl (urlRegex : String) (lineNumber columnNumber : Nat) (condition : Option String)
deriving DecidableEq

/-- The external collaborators of the adapter, abstracted as oracles: the
transformer pipeline hooks it calls, the utils string helpers not in the
sources, and the CDP evaluation used for property counts and container
expansion (variables.ts is not part of the sources). -/
structure Env where
  fixDriveLetterAndSlashes : String → String
  pathToRegex : String → String
  getGeneratedPathFromAuthoredPath : String → Option String
  getTargetPathFromClientPath : String → Option String
  expandContainer : VariableContainer → Option String → Option Nat → Option Nat → Except DebugError (List Variable)
  setContainerValue : VariableContainer → String → String → Except DebugError String
  callFunctionOnProps : String → String → Except String (List Nat)

/-- The mutable state of a ChromeDebugAdapter instance (the fields the claims
are about). -/
structure AdapterState where
  currentStack : Option (List CallFrame)
  committedBreakpointsByUrl : List (String × Option (List String))
  exceptionObj : Option RemoteObject
  setBreakpointsRequestQ : Promise Unit
  expectingResumedEvent : Bool
  expectingStopReason : Option String
  frameHandles : HandleMap (Option CallFrame)
  variableHandles : HandleMap VariableContainer
  breakpointIdHandles : HandleMap (Option String)
  sourceHandles : HandleMap SourceContainer
  scriptsById : List (String × ScriptParsedEvent)
  scriptsByUrl : List (String × ScriptParsedEvent)
  pendingBreakpointsByUrl : List (String × PendingBreakpoint)
  currentStep : Option CdpStepCommand
  nextUnboundBreakpointId : Nat
  smartStep : Bool
  smartStepCount : Nat
  sourceMaps : Bool
deriving DecidableEq

/-- The constant PLACEHOLDER_URL_PROTOCOL of the sources. -/
def PLACEHOLDER_URL_PROTOCOL : String := "debugadapter://"

/-- The constant SET_BREAKPOINTS_TIMEOUT of the sources, in milliseconds. -/
def SET_BREAKPOINTS_TIMEOUT : Nat := 3000

/-- The adapter state as established by the constructor (which calls
clearTargetContext on the freshly initialized fields). -/
def initialAdapterState : AdapterState where
  currentStack := none
  committedBreakpointsByUrl := []
  exceptionObj := none
  setBreakpointsRequestQ := resolvedUnitPromise
  expectingResumedEvent := false
  expectingStopReason := none
  frameHandles := HandleMap.empty
  variableHandles := HandleMap.empty
  breakpointIdHandles := HandleMap.empty
  sourceHandles := HandleMap.empty
  scriptsById := []
  scriptsByUrl := []
  pendingBreakpointsByUrl := []
  currentStep := none
  nextUnboundBreakpointId := 0
  smartStep := false
  smartStepCount := 0
  sourceMaps := false

/-- clearTargetContext: drop all scripts and committed breakpoints and reset
the set-breakpoints request queue (the transformer clearTargetContext calls
are external side effects). -/
def clearTargetContext (s : AdapterState) : AdapterState :=
  { s with
    scriptsById := []
    scriptsByUrl := []
    committedBreakpointsByUrl := []
    setBreakpointsRequestQ := resolvedUnitPromise }

/-- onGlobalObjectCleared simply calls clearTargetContext. -/
def onGlobalObjectCleared (s : AdapterState) : AdapterState :=
  clearTargetContext s

/-- shouldIgnoreScript: extension scripts and internal Chrome scripts are ignored. -/
def shouldIgnoreScript (script : ScriptParsedEvent) : Bool :=
  jsStartsWith script.url "extensions::" || jsStartsWith script.url "chrome-extension://"

/-- The synchronous part of onDebuggerPaused: reset the frame, variable and
source handle registries, clear the exception, store the call frames, select
the stop reason and clear expectingStopReason.  The returned string is the
selected stop reason (the asynchronous smart-step check and the Stopped
emission gated on currentStep follow it in the sources). -/
def onDebuggerPausedSync (s : AdapterState) (n : PausedEvent) : AdapterState × String :=
  let sReset := { s with
    variableHandles := HandleMap.empty
    frameHandles := HandleMap.empty
    sourceHandles := HandleMap.empty
    exceptionObj := none
    currentStack := some n.callFrames }
  if n.reason = "exception" then
    ({ sReset with exceptionObj := n.data, expectingStopReason := none }, "exception")
  else if jsTruthyStrList n.hitBreakpoints then
    ({ sReset with expectingStopReason := none }, "breakpoint")
  else if jsTruthyOptStr s.expectingStopReason then
    ({ sReset with expectingStopReason := none }, s.expectingStopReason.getD "")
  else
    ({ sReset with expectingStopReason := none }, "debugger")

/-- The stop-reason selection exactly as the specification words it, for
comparison with the embedded onDebuggerPaused. -/
def specStopReason (expecting : Option String) (n : PausedEvent) : String :=
  if n.reason = "exception" then "exception"
  else if n.hitBreakpoints.getD [] ≠ [] then "breakpoint"
  else
    match expecting with
    | some r => r
    | none => "debugger"

/-- onDebuggerResumed: clear the current stack and, unless suppressed by
expectingResumedEvent, emit a Continued event (the boolean of the result). -/
def onDebuggerResumedOp (s : AdapterState) : AdapterState × Bool :=
  let s' := { s with currentStack := none }
  if !s'.expectingResumedEvent then
    (s', true)
  else
    ({ s' with expectingResumedEvent := false }, false)

/-- onScriptParsed: ignore extension scripts; normalize the URL or synthesize
the placeholder URL for scripts without one; record the script under both
indices.  The asynchronous source-map callback that resolves pending
breakpoints is driven by the external transformer and is not part of this
synchronous transition. -/
def onScriptParsed (env : Env) (s : AdapterState) (script : ScriptParsedEvent) : AdapterState :=
  if shouldIgnoreScript script then s
  else
    let script :=
      if script.url ≠ "" then { script with url := env.fixDriveLetterAndSlashes script.url }
      else { script with url := PLACEHOLDER_URL_PROTOCOL ++ script.scriptId }
    { s with
      scriptsById := mapSet s.scriptsById script.scriptId script
      scriptsByUrl := mapSet s.scriptsByUrl script.url script }

/-- The CDP requests issued by addBreakpoints: for placeholder URLs an explicit
Debugger.setBreakpoint location per breakpoint, otherwise
Debugger.setBreakpointByUrl with the URL regex. -/
def addBreakpointsRequests (env : Env) (url : String) (breakpoints : List SourceBreakpoint) : List CdpBpRequest :=
  if jsStartsWith url PLACEHOLDER_URL_PROTOCOL then
    let scriptId := lstrip url PLACEHOLDER_URL_PROTOCOL
    breakpoints.map (fun bp => .setBreakpoint scriptId bp.line (bp.column.getD 0) bp.condition)
  else
    let urlRegex := env.pathToRegex url
    breakpoints.map (fun bp => .setBreakpointByUrl urlRegex bp.line (bp.column.getD 0) bp.condition)

/-- The per-response translation loop of chromeBreakpointResponsesToODPBreakpoints.
Every response reaching it is an object (the swallowed-error case is the empty
object, so the falsy-response guard of the sources is unreachable); each
response has an id minted for its (possibly absent) breakpointId, and is
verified exactly when an actualLocation is present. -/
def respToOdpBps (s : AdapterState) : List SetBreakpointResponse → List Breakpoint × AdapterState
  | [] => ([], s)
  | r :: rest =>
    match r.actualLocation with
    | none =>
      let idv := (HandleMap.create s.breakpointIdHandles r.breakpointId).1
      let s' := { s with breakpointIdHandles := (HandleMap.create s.breakpointIdHandles r.breakpointId).2 }
      ({ id := some idv, verified := false } :: (respToOdpBps s' rest).1, (respToOdpBps s' rest).2)
    | some loc =>
      let idv := (HandleMap.create s.breakpointIdHandles r.breakpointId).1
      let s' := { s with breakpointIdHandles := (HandleMap.create s.breakpointIdHandles r.breakpointId).2 }
      ({ id := some idv, verified := true, line := some loc.lineNumber, column := some loc.columnNumber } ::
        (respToOdpBps s' rest).1, (respToOdpBps s' rest).2)

/-- chromeBreakpointResponsesToODPBreakpoints: cache the truthy breakpointIds as
the committed list for the URL, then translate each response to a DAP
Breakpoint. -/
def chromeBreakpointResponsesToODPBreakpoints (s : AdapterState) (url : String)
    (responses : List SetBreakpointResponse) (_requestBps : List SourceBreakpoint) :
    List Breakpoint × AdapterState :=
  let committedBpIds := responses.filterMap
    (fun r => if jsTruthyOptStr r.breakpointId then r.breakpointId else none)
  let s' := { s with
    committedBreakpointsByUrl := mapSet s.committedBreakpointsByUrl url (some committedBpIds) }
  respToOdpBps s' responses

/-- The translation the amended claim describes: every response gets a freshly
minted id (even the swallowed empty object, whose absent breakpointId is
inserted into the registry), and is verified with line and column exactly when
an actualLocation is present. -/
def amendedOdpBreakpoints (n : Nat) : List SetBreakpointResponse → List Breakpoint
  | [] => []
  | r :: rest =>
    (match r.actualLocation with
     | none => { id := some n, verified := false : Breakpoint }
     | some loc => { id := some n, verified := true, line := some loc.lineNumber, column := some loc.columnNumber }) ::
    amendedOdpBreakpoints (n + 1) rest

/-- The continue command: suppress the next resumed event and issue
Debugger.resume, storing its completion in currentStep. -/
def continueOp (s : AdapterState) : AdapterState :=
  { s with expectingResumedEvent := true, currentStep := some .resume }

/-- The next command: expect a step stop, suppress the next resumed event and
issue Debugger.stepOver, storing its completion in currentStep. -/
def nextOp (s : AdapterState) : AdapterState :=
  { s with expectingStopReason := some "step", expectingResumedEvent := true,
           currentStep := some .stepOver }

/-- The stepIn command: expect a step stop, suppress the next resumed event and
issue Debugger.stepInto, storing its completion in currentStep. -/
def stepInOp (s : AdapterState) : AdapterState :=
  { s with expectingStopReason := some "step", expectingResumedEvent := true,
           currentStep := some .stepInto }

/-- The stepOut command: expect a step stop, suppress the next resumed event and
issue Debugger.stepOut, storing its completion in currentStep. -/
def stepOutOp (s : AdapterState) : AdapterState :=
  { s with expectingStopReason := some "step", expectingResumedEvent := true,
           currentStep := some .stepOutOf }

/-- The pause command: expect a user_request stop and issue Debugger.pause,
storing its completion in currentStep (note that unlike the other four
commands it does not touch expectingResumedEvent). -/
def pauseOp (s : AdapterState) : AdapterState :=
  { s with expectingStopReason := some "user_request", currentStep := some .pauseTarget }

/-- validateBreakpointsPath: a path source must round-trip through the
source-map and path transformers before breakpoints can be set on it. -/
def validateBreakpointsPath (env : Env) (args : SetBreakpointsArgs) : Except String Unit :=
  match args.source.path with
  | none => .ok ()
  | some p =>
    match env.getGeneratedPathFromAuthoredPath p with
    | none => .error "Breakpoint ignored because generated code not found (source map problem?)."
    | some mappedPath =>
      match env.getTargetPathFromClientPath mappedPath with
      | none => .error "Breakpoint ignored because target path not found"
      | some _ => .ok ()

/-- Which of the four setBreakpoints branches a request takes.  Besides the
validation error path, the known-script path and the no-script path, a
sourceReference that names no registered source handle makes the source
dereference undefined (handle.scriptId): the TypeError thrown there is not
caught by the rejection handler of the same then, so the whole request rejects
and no response is produced. -/
inductive SetBpRoute where
  | errorPath (msg : String)
  | known (targetScriptUrl : String)
  | noScript
  | danglingSourceRef
deriving DecidableEq

/-- Whether a route is the known-script branch. -/
def SetBpRoute.isKnown : SetBpRoute → Bool
  | .known _ => true
  | _ => false

/-- Whether a route resolves with the unverified response (the validation error
path and the no-script path do; the known-script path proceeds to the timed
queue work, and the dangling-sourceReference path rejects uncaught). -/
def SetBpRoute.isUnverifiedResponse : SetBpRoute → Bool
  | .errorPath _ => true
  | .noScript => true
  | _ => false

/-- The message handed to unverifiedBpResponse on the two graceful not-known
branches. -/
def routeMessage : SetBpRoute → Option String
  | .errorPath m => some m
  | .noScript => some "Can\x27t find script for breakpoint request"
  | .known _ => none
  | .danglingSourceRef => none

/-- The branch structure of setBreakpoints: validation failure takes the error
path; otherwise the target script URL is the source path when present, or the
URL of the script stored for the sourceReference handle; with no URL the
request is routed to the unverified response.  A sourceReference with no
registered handle is the uncaught-TypeError rejection: the source evaluates
handle.scriptId on undefined, and the error handler attached as the second
argument of the same then does not see it. -/
def setBreakpointsRoute (env : Env) (s : AdapterState) (args : SetBreakpointsArgs) : SetBpRoute :=
  match validateBreakpointsPath env args with
  | .error m => .errorPath m
  | .ok _ =>
    match args.source.path with
    | some p => .known p
    | none =>
      match args.source.sourceReference with
      | some ref =>
        match HandleMap.get s.sourceHandles ref with
        | none => .danglingSourceRef
        | some handle =>
          match handle.scriptId.bind (fun sid => mapGet s.scriptsById sid) with
          | some targetScript => .known targetScript.url
          | none => .noScript
      | none => .noScript

/-- The id-minting loop of unverifiedBpResponse: one unverified DAP breakpoint
per requested breakpoint, each carrying a fresh id created in the
breakpoint-id handle registry for the next unbound breakpoint counter. -/
def mintUnverifiedBps (s : AdapterState) (message : Option String) :
    List SourceBreakpoint → List Breakpoint × AdapterState
  | [] => ([], s)
  | bp :: rest =>
    let bpIdStr := toString s.nextUnboundBreakpointId
    let idv := (HandleMap.create s.breakpointIdHandles (some bpIdStr)).1
    let s' := { s with breakpointIdHandles := (HandleMap.create s.breakpointIdHandles (some bpIdStr)).2,
                       nextUnboundBreakpointId := s.nextUnboundBreakpointId + 1 }
    ({ verified := false, line := some bp.line, column := bp.column,
       message := message, id := some idv } :: (mintUnverifiedBps s' message rest).1,
     (mintUnverifiedBps s' message rest).2)

/-- unverifiedBpResponse: mint unverified breakpoints and, when the source has a
path, store the pending record for it (replacing any previous one). -/
def unverifiedBpResponse (s : AdapterState) (args : SetBreakpointsArgs) (message : Option String) :
    SetBreakpointsResponseBody × AdapterState :=
  let breakpoints := (mintUnverifiedBps s message args.breakpoints).1
  let s' := (mintUnverifiedBps s message args.breakpoints).2
  match args.source.path with
  | some p =>
    let ids := breakpoints.filterMap Breakpoint.id
    (⟨breakpoints⟩,
      { s' with pendingBreakpointsByUrl := mapSet s'.pendingBreakpointsByUrl p ⟨args, ids⟩ })
  | none => (⟨breakpoints⟩, s')

/-- The not-known-script outcome of setBreakpoints: the two graceful not-known
routes produce the unverified response; the known route is handled by the
timed queue (setBreakpointsQueued), and the dangling-sourceReference route
rejects uncaught, producing no response, minting no ids and storing no
pending record. -/
def setBreakpointsNotKnownResult (env : Env) (s : AdapterState) (args : SetBreakpointsArgs) :
    Option (SetBreakpointsResponseBody × AdapterState) :=
  match setBreakpointsRoute env s args with
  | .known _ => none
  | .danglingSourceRef => none
  | r => some (unverifiedBpResponse s args (routeMessage r))

/-- The known-script timing skeleton of setBreakpoints: the clear-then-add work
is chained onto the serialization queue, bounded by the 3000 ms timeout; the
timed promise is returned to the caller while the queue is updated with the
error-swallowing copy of it. -/
def setBreakpointsQueued (q : Promise Unit) (clearAndAdd : Promise SetBreakpointsResponseBody) :
    Promise SetBreakpointsResponseBody × Promise Unit :=
  let setBreakpointsPFailOnError := promiseSeq q clearAndAdd
  let setBreakpointsPTimeout :=
    promiseTimeout setBreakpointsPFailOnError SET_BREAKPOINTS_TIMEOUT
      "Set breakpoints request timed out"
  (setBreakpointsPTimeout, promiseSwallow setBreakpointsPTimeout)

/-- callFrameToStackFrame: build the DAP stack frame for a CDP call frame,
creating a source handle and a frame handle.  When the script is unknown the
sources create the source handle, then throw evaluating the frame name if the
function name is also missing, landing in the catch block that stores a null
frame handle for the dummy frame. -/
def callFrameToStackFrame (s : AdapterState) (frame : CallFrame) : StackFrame × AdapterState :=
  let line := frame.location.lineNumber
  let column := frame.location.columnNumber
  match mapGet s.scriptsById frame.location.scriptId with
  | some script =>
    if !shouldIgnoreScript script then
      let (srcRef, sh) := HandleMap.create s.sourceHandles { scriptId := some script.scriptId }
      let s' := { s with sourceHandles := sh }
      let frameName :=
        if frame.functionName ≠ "" then frame.functionName
        else if script.url ≠ "" then "(anonymous function)" else "(eval code)"
      let (fid, fh) := HandleMap.create s'.frameHandles (some frame)
      ({ id := fid, name := frameName, sourceName := some (basename script.url),
         sourcePath := some script.url, sourceReference := some srcRef,
         line := line, column := column }, { s' with frameHandles := fh })
    else
      let (srcRef, sh) := HandleMap.create s.sourceHandles { scriptId := some frame.location.scriptId }
      let s' := { s with sourceHandles := sh }
      let frameName :=
        if frame.functionName ≠ "" then frame.functionName
        else if script.url ≠ "" then "(anonymous function)" else "(eval code)"
      let (fid, fh) := HandleMap.create s'.frameHandles (some frame)
      ({ id := fid, name := frameName, sourceName := some (basename script.url),
         sourcePath := some (PLACEHOLDER_URL_PROTOCOL ++ frame.location.scriptId),
         sourceReference := some srcRef, line := line, column := column },
       { s' with frameHandles := fh })
  | none =>
    let (srcRef, sh) := HandleMap.create s.sourceHandles { scriptId := some frame.location.scriptId }
    let s' := { s with sourceHandles := sh }
    if frame.functionName ≠ "" then
      let (fid, fh) := HandleMap.create s'.frameHandles (some frame)
      ({ id := fid, name := frame.functionName, sourceName := none,
         sourcePath := some (PLACEHOLDER_URL_PROTOCOL ++ frame.location.scriptId),
         sourceReference := some srcRef, line := line, column := column },
       { s' with frameHandles := fh })
    else
      let (fid, fh) := HandleMap.create s'.frameHandles none
      ({ id := fid, name := "Unknown", sourceName := some "eval:Unknown",
         sourcePath := some (PLACEHOLDER_URL_PROTOCOL ++ "Unknown"),
         sourceReference := none, line := line, column := column },
       { s' with frameHandles := fh })

/-- The frame-translation loop of stackTrace, threading the handle registries. -/
def stackFramesFold (s : AdapterState) : List CallFrame → List StackFrame × AdapterState
  | [] => ([], s)
  | f :: rest =>
    let s' := (callFrameToStackFrame s f).2
    ((callFrameToStackFrame s f).1 :: (stackFramesFold s' rest).1, (stackFramesFold s' rest).2)

/-- stackTrace: translate the current stack (truncated to a truthy levels
argument).  The sources would throw on a null stack; the DAP client only asks
for a stack trace while paused, so that case returns no body here. -/
def stackTraceOp (s : AdapterState) (levels : Option Nat) : Option (List StackFrame) × AdapterState :=
  match s.currentStack with
  | none => (none, s)
  | some frames =>
    let stack :=
      match levels with
      | some l => if l = 0 then frames else frames.take l
      | none => frames
    (some (stackFramesFold s stack).1, (stackFramesFold s stack).2)

/-- The adapter events of the pause/resume life cycle used to explore states
that are not paused. -/
inductive AdapterEvent where
  | paused (n : PausedEvent)
  | stackTraceReq (levels : Option Nat)
  | resumed
deriving DecidableEq

/-- One step of the pause/resume life cycle. -/
def stepAdapter (s : AdapterState) : AdapterEvent → AdapterState
  | .paused n => (onDebuggerPausedSync s n).1
  | .stackTraceReq levels => (stackTraceOp s levels).2
  | .resumed => (onDebuggerResumedOp s).1

/-- Run a sequence of life-cycle events. -/
def runAdapter (s : AdapterState) : List AdapterEvent → AdapterState
  | [] => s
  | e :: rest => runAdapter (stepAdapter s e) rest

/-- Modelled from the spec: isIndexedPropName of variables.ts (not part of the
sources) recognizes decimal-integer names with no leading zeros except "0". -/
def isIndexedPropName (name : String) : Bool :=
  match name.data with
  | [] => false
  | [c] => c.isDigit
  | c :: rest => c.isDigit && c != '0' && rest.all Char.isDigit

/-- A DAP variable with no children, as the simple branches of
remoteObjectToVariable produce. -/
def simpleVariable (name : String) (value : Option String) : Variable :=
  { name := name, value := value, variablesReference := 0 }

/-- The eval body used by getArrayNumPropsByEval. -/
def getArrayNumPropsFn : String :=
  "function() \x7b return [this.length, Object.keys(this).length - this.length]; \x7d"

/-- The eval body used by getCollectionNumPropsByEval (the extra name counts the
entries pseudo-property). -/
def getCollectionNumPropsFn : String :=
  "function() \x7b return [0, Object.keys(this).length + 1]; \x7d"

/-- getNumPropsByEval: run the counting function on the target via the CDP
oracle and demand exactly two numbers back. -/
def getNumPropsByEval (env : Env) (objectId : Option String) (getNumPropsFn : String) :
    Except DebugError (Option Nat × Option Nat) :=
  match env.callFunctionOnProps (objectId.getD "") getNumPropsFn with
  | .error m => .error (.errorFromEvaluate m)
  | .ok resultProps =>
    if resultProps.length ≠ 2 then
      .error (.errorFromEvaluate ("Did not get expected props, got " ++ toString resultProps))
    else
      .ok (some (resultProps.getD 0 0), some (resultProps.getD 1 0))

/-- getArrayNumPropsByPreview: count indexed and named properties of the preview. -/
def getArrayNumPropsByPreview (obj : RemoteObject) : Option Nat × Option Nat :=
  let props := (obj.preview.map (·.properties)).getD []
  (some (props.filter (fun p => isIndexedPropName p.name)).length,
   some (props.filter (fun p => !isIndexedPropName p.name)).length)

/-- getCollectionNumPropsByPreview: sets and maps expose their preview length
plus one named entry for the entries pseudo-property. -/
def getCollectionNumPropsByPreview (obj : RemoteObject) : Option Nat × Option Nat :=
  let props := (obj.preview.map (·.properties)).getD []
  (some 0, some (props.length + 1))

/-- createFunctionVariable: truncate the description at the first brace or
arrow and open a property container for expansion. -/
def createFunctionVariable (s : AdapterState) (name : String) (obj : RemoteObject) :
    Variable × AdapterState :=
  let d := obj.description.getD ""
  let value :=
    match strIndexOfSub d "\x7b" with
    | some i => strTakeChars d i ++ "\x7b … \x7d"
    | none =>
      match strIndexOfSub d "=>" with
      | some i => strTakeChars d (i + 2) ++ " …"
      | none => d
  let (ref, vh) := HandleMap.create s.variableHandles (.property obj.objectId)
  ({ name := name, value := some value, variablesReference := ref, type := some value },
   { s with variableHandles := vh })

/-- createObjectVariable: choose the display value and the property counts by
subtype, then open a property container.  (The property-count eval runs before
the synchronous handle creation in the sources; its failure rejects the
returned promise after the handle was already created, which the paired state
reflects.) -/
def createObjectVariable (env : Env) (s : AdapterState) (name : String) (obj : RemoteObject) :
    Except DebugError Variable × AdapterState :=
  let value0 : Option String := obj.description
  let (value, propCount) : Option String × Except DebugError (Option Nat × Option Nat) :=
    if obj.subtype = some "array" || obj.subtype = some "typedarray" then
      match obj.preview with
      | some p =>
        if !p.overflow then (value0, .ok (getArrayNumPropsByPreview obj))
        else (value0, getNumPropsByEval env obj.objectId getArrayNumPropsFn)
      | none => (value0, getNumPropsByEval env obj.objectId getArrayNumPropsFn)
    else if obj.subtype = some "set" || obj.subtype = some "map" then
      match obj.preview with
      | some p =>
        if !p.overflow then (value0, .ok (getCollectionNumPropsByPreview obj))
        else (value0, getNumPropsByEval env obj.objectId getCollectionNumPropsFn)
      | none => (value0, getNumPropsByEval env obj.objectId getCollectionNumPropsFn)
    else
      let d := obj.description.getD ""
      let v : Option String :=
        if obj.subtype = some "error" then
          match strIndexOfSub d "\n" with
          | some i => some (strTakeChars d i)
          | none => value0
        else if obj.subtype = some "promise" && obj.preview.isSome then
          match ((obj.preview.map (·.properties)).getD []).filter
              (fun p => p.name == "[[PromiseStatus]]") with
          | st :: _ => some (d ++ " \x7b " ++ st.value.getD "undefined" ++ " \x7d")
          | [] => value0
        else if obj.subtype = some "generator" && obj.preview.isSome then
          match ((obj.preview.map (·.properties)).getD []).filter
              (fun p => p.name == "[[GeneratorStatus]]") with
          | st :: _ => some (d ++ " \x7b " ++ st.value.getD "undefined" ++ " \x7d")
          | [] => value0
        else value0
      (v, .ok (none, none))
  let (ref, vh) := HandleMap.create s.variableHandles (.property obj.objectId)
  let s' := { s with variableHandles := vh }
  match propCount with
  | .error e => (.error e, s')
  | .ok (iv, nv) =>
    (.ok { name := name, value := value, type := value, variablesReference := ref,
           indexedVariables := iv, namedVariables := nv }, s')

/-- remoteObjectToVariable: the variant analysis of a CDP RemoteObject into a
DAP variable. -/
def remoteObjectToVariable (env : Env) (s : AdapterState) (name : String)
    (object : Option RemoteObject) (stringify : Bool := true) :
    Except DebugError Variable × AdapterState :=
  match object with
  | none => (.ok (simpleVariable name (some "")), s)
  | some obj =>
    if obj.type = "object" then
      if obj.subtype = some "internal#location" then
        (.ok (simpleVariable name (some "internal#location")), s)
      else if obj.subtype = some "null" then
        (.ok (simpleVariable name (some "null")), s)
      else
        createObjectVariable env s name obj
    else if obj.type = "undefined" then
      (.ok (simpleVariable name (some "undefined")), s)
    else if obj.type = "function" then
      let (v, s') := createFunctionVariable s name obj
      (.ok v, s')
    else
      let value : Option String :=
        match obj.value with
        | none => obj.description
        | some v =>
          if obj.type = "number" then obj.description
          else if stringify then some (jsonStringify v) else some (jsValToString v)
      (.ok (simpleVariable name value), s)

/-- The variables request: an unknown variablesReference resolves successfully
with an undefined body; a known container expands (via the variables.ts
container code, here the oracle). -/
def variablesOp (env : Env) (s : AdapterState) (variablesReference : Nat)
    (filterArg : Option String) (start count : Option Nat) :
    Except DebugError (Option VariablesBody) :=
  match HandleMap.get s.variableHandles variablesReference with
  | none => .ok none
  | some handle =>
    match env.expandContainer handle filterArg start count with
    | .error e => .error e
    | .ok vs => .ok (some ⟨vs⟩)

/-- The setVariable request: an unknown variablesReference rejects with the
set-value-not-supported domain error; a known container performs the set (via
the variables.ts container code, here the oracle). -/
def setVariableOp (env : Env) (s : AdapterState) (variablesReference : Nat)
    (name value : String) : Except DebugError SetVariableBody :=
  match HandleMap.get s.variableHandles variablesReference with
  | none => .error DebugError.setValueNotSupported
  | some handle =>
    match env.setContainerValue handle name value with
    | .error e => .error e
    | .ok v => .ok ⟨v⟩

/-- A concrete oracle environment for evaluating the definitions on concrete
inputs: identity transformers, a source-map that knows no generated paths, and
a CDP connection that refuses evaluation. -/
def env0 : Env where
  fixDriveLetterAndSlashes := id
  pathToRegex := id
  getGeneratedPathFromAuthoredPath := fun _ => none
  getTargetPathFromClientPath := some
  expandContainer := fun _ _ _ _ => .ok []
  setContainerValue := fun _ _ _ => .ok ""
  callFunctionOnProps := fun _ _ => .error "not attached"

/-- A concrete paused notification with no exception, no hit breakpoints. -/
def pausedEventC1 : PausedEvent :=
  { callFrames := [], reason := "other" }

/-- A concrete state expecting a step stop. -/
def stateExpectingStep : AdapterState :=
  { initialAdapterState with expectingStopReason := some "step" }

/-- A concrete setBreakpoints request for a path source with one breakpoint. -/
def argsFooJs : SetBreakpointsArgs :=
  { source := { path := some "/x/foo.js" }, breakpoints := [{ line := 10 }] }

/-- A concrete setBreakpoints request whose source names a sourceReference with
no registered handle. -/
def argsDanglingRef : SetBreakpointsArgs :=
  { source := { sourceReference := some 3 }, breakpoints := [{ line := 5 }] }

/-- A concrete script-parsed notification carrying no URL. -/
def scriptNoUrl : ScriptParsedEvent :=
  { scriptId := "42", url := "" }

/-- A concrete call frame on an unknown script, used to exercise the
pause/stackTrace/resume life cycle. -/
def frameF : CallFrame :=
  { callFrameId := "cf1", functionName := "f",
    location := { scriptId := "7", lineNumber := 0, columnNumber := 0 } }

/-- The life-cycle trace that pauses, materializes a frame handle via
stackTrace, and resumes. -/
def traceC8 : List AdapterEvent :=
  [.paused { callFrames := [frameF], reason := "other" }, .stackTraceReq none, .resumed]

/-- The response and state produced by the not-known-script path of
setBreakpoints: the unverified response built for the message of the taken
route. -/
def unknownScriptOutcome (env : Env) (s : AdapterState) (args : SetBreakpointsArgs) :
    SetBreakpointsResponseBody × AdapterState :=
  unverifiedBpResponse s args (routeMessage (setBreakpointsRoute env s args))

theorem mapGet_mapSet_self {α : Type} (m : List (String × α)) (k : String) (v : α) :
    mapGet (mapSet m k v) k = some v := by
  unfold mapGet mapSet
  rw [List.find?_cons_of_pos _ (by simp)]
  rfl

theorem filter_key_of_removed {α : Type} (m : List (String × α)) (k : String) :
    (m.filter (fun e => e.1 != k)).filter (fun e => e.1 == k) = [] := by
  induction m with
  | nil => rfl
  | cons e rest ih =>
    by_cases h : e.1 = k
    · simp [List.filter_cons, h, ih]
    · simp [List.filter_cons, h, ih]

theorem countKey_mapSet_self {α : Type} (m : List (String × α)) (k : String) (v : α) :
    countKey (mapSet m k v) k = 1 := by
  unfold countKey mapSet
  rw [List.filter_cons]
  simp [filter_key_of_removed]

theorem handleMapGet_of_le {α : Type} (h : HandleMap α) (hwf : handleMapWF h) (n : Nat)
    (hn : h.nextHandle ≤ n) : HandleMap.get h n = none := by
  unfold HandleMap.get
  cases hf : h.entries.find? (fun e => e.1 == n) with
  | none => rfl
  | some e =>
    exfalso
    have hmem := List.mem_of_find?_eq_some hf
    have hpred := List.find?_some hf
    have he : e.1 = n := by simpa using hpred
    have := hwf e hmem
    omega

/-- C5: after Debugger.globalObjectCleared both script maps and the
committed-breakpoints map are empty and the set-breakpoints request queue is
reset to a resolved promise, while the breakpoint-id handle registry is left
untouched, so previously issued breakpoint ids still resolve to the same
values. -/
theorem globalObjectCleared_clears_context (s : AdapterState) :
    (onGlobalObjectCleared s).scriptsById = [] ∧
    (onGlobalObjectCleared s).scriptsByUrl = [] ∧
    (onGlobalObjectCleared s).committedBreakpointsByUrl = [] ∧
    (onGlobalObjectCleared s).setBreakpointsRequestQ = resolvedUnitPromise ∧
    (onGlobalObjectCleared s).breakpointIdHandles = s.breakpointIdHandles ∧
    (∀ idv, HandleMap.get (onGlobalObjectCleared s).breakpointIdHandles idv
      = HandleMap.get s.breakpointIdHandles idv) := by
  refine ⟨rfl, rfl, rfl, rfl, rfl, fun idv => rfl⟩

/-- C7 counterexample: the pause command does not set expectingResumedEvent;
starting from the initial state it leaves the flag false, so the claim that
each of the five commands sets it to true is wrong for pause. -/
theorem pause_expectingResumedEvent_counterexample :
    (pauseOp initialAdapterState).expectingResumedEvent = false ∧
    (pauseOp initialAdapterState).expectingStopReason = some "user_request" := by
  exact ⟨rfl, rfl⟩

/-- C7 amended: continue, next, stepIn and stepOut set expectingResumedEvent to
true, while pause leaves it unchanged; the three stepping commands set
expectingStopReason to step and pause sets it to user_request (continue leaves
it unchanged); each of the five stores the completion of its CDP command in
currentStep. -/
theorem step_commands_flags_amended (s : AdapterState) :
    (continueOp s).expectingResumedEvent = true ∧
    (continueOp s).expectingStopReason = s.expectingStopReason ∧
    (continueOp s).currentStep = some CdpStepCommand.resume ∧
    (nextOp s).expectingResumedEvent = true ∧
    (nextOp s).expectingStopReason = some "step" ∧
    (nextOp s).currentStep = some CdpStepCommand.stepOver ∧
    (stepInOp s).expectingResumedEvent = true ∧
    (stepInOp s).expectingStopReason = some "step" ∧
    (stepInOp s).currentStep = some CdpStepCommand.stepInto ∧
    (stepOutOp s).expectingResumedEvent = true ∧
    (stepOutOp s).expectingStopReason = some "step" ∧
    (stepOutOp s).currentStep = some CdpStepCommand.stepOutOf ∧
    (pauseOp s).expectingResumedEvent = s.expectingResumedEvent ∧
    (pauseOp s).expectingStopReason = some "user_request" ∧
    (pauseOp s).currentStep = some CdpStepCommand.pauseTarget := by
  refine ⟨rfl, rfl, rfl, rfl, rfl, rfl, rfl, rfl, rfl, rfl, rfl, rfl, rfl, rfl, rfl⟩

/-- C1: the stop reason of a Debugger.paused notification is selected exactly
as the specification words it (exception with captured data, then non-empty
hitBreakpoints, then the stored expectingStopReason when set, then debugger),
and expectingStopReason is cleared afterwards in every case. -/
theorem onDebuggerPaused_stop_reason_selection (s : AdapterState) (n : PausedEvent)
    (h : s.expectingStopReason ≠ some "") :
    (onDebuggerPausedSync s n).2 = specStopReason s.expectingStopReason n ∧
    (onDebuggerPausedSync s n).1.expectingStopReason = none ∧
    (onDebuggerPausedSync s n).1.exceptionObj
      = (if n.reason = "exception" then n.data else none) := by
  unfold onDebuggerPausedSync specStopReason
  by_cases hex : n.reason = "exception"
  · simp [hex]
  · cases hhit : n.hitBreakpoints with
    | none =>
      cases hexp : s.expectingStopReason with
      | none => simp [hex, hhit, hexp, jsTruthyStrList, jsTruthyOptStr]
      | some r =>
        have hr : r ≠ "" := fun hr0 => h (by rw [hexp, hr0])
        simp [hex, hhit, hexp, jsTruthyStrList, jsTruthyOptStr, hr]
    | some l =>
      cases l with
      | nil =>
        cases hexp : s.expectingStopReason with
        | none => simp [hex, hhit, hexp, jsTruthyStrList, jsTruthyOptStr]
        | some r =>
          have hr : r ≠ "" := fun hr0 => h (by rw [hexp, hr0])
          simp [hex, hhit, hexp, jsTruthyStrList, jsTruthyOptStr, hr]
      | cons x xs => simp [hex, hhit, jsTruthyStrList]

/-- C1 witness: a concrete pause with a stored step reason and no breakpoints
stops with reason step and clears the stored reason. -/
theorem onDebuggerPaused_stop_reason_selection_witness :
    stateExpectingStep.expectingStopReason ≠ some "" ∧
    (onDebuggerPausedSync stateExpectingStep pausedEventC1).2 = "step" ∧
    (onDebuggerPausedSync stateExpectingStep pausedEventC1).1.expectingStopReason = none := by
  have h := onDebuggerPaused_stop_reason_selection stateExpectingStep pausedEventC1 (by decide)
  exact ⟨by decide, by rw [h.1]; rfl, h.2.1⟩

/-- C3: a setBreakpoints call whose total work (queue wait plus clear-and-add)
exceeds 3000 ms is returned to its caller as a rejection with the request
timed out error, while the serialization queue is updated with a copy of the
promise whose error is swallowed, so a later call chained onto the queue is
not blocked by the failure.  (spec-modelled: utils.promiseTimeout and the
promise timing semantics are modelled from the spec.) -/
theorem setBreakpoints_timeout_queue (q : Promise Unit)
    (clearAndAdd : Promise SetBreakpointsResponseBody)
    (h : (promiseSeq q clearAndAdd).time > SET_BREAKPOINTS_TIMEOUT) :
    (setBreakpointsQueued q clearAndAdd).1.outcome
      = POutcome.err "Set breakpoints request timed out" ∧
    (setBreakpointsQueued q clearAndAdd).2.outcome = POutcome.ok () ∧
    (∀ later : Promise SetBreakpointsResponseBody,
      (promiseSeq (setBreakpointsQueued q clearAndAdd).2 later).outcome = later.outcome) := by
  unfold setBreakpointsQueued promiseTimeout promiseSwallow
  have h' : ¬ (promiseSeq q clearAndAdd).time ≤ SET_BREAKPOINTS_TIMEOUT := by omega
  refine ⟨by simp [h'], by simp [h'], fun later => by simp [h', promiseSeq]⟩

/-- C3 witness: a request whose clear-and-add work takes 4000 ms on an idle
queue fails with the timeout error, leaves the queue resolved, and does not
block a later request. -/
theorem setBreakpoints_timeout_queue_witness :
    (promiseSeq resolvedUnitPromise (⟨4000, .ok ⟨[]⟩⟩ : Promise SetBreakpointsResponseBody)).time
      > SET_BREAKPOINTS_TIMEOUT ∧
    (setBreakpointsQueued resolvedUnitPromise ⟨4000, .ok ⟨[]⟩⟩).1.outcome
      = POutcome.err "Set breakpoints request timed out" := by
  exact ⟨by decide,
    (setBreakpoints_timeout_queue resolvedUnitPromise ⟨4000, .ok ⟨[]⟩⟩ (by decide)).1⟩

/-- C10: a variables request for a variablesReference that is not a registered
variable handle resolves successfully with an undefined body, whereas
setVariable for the same unknown reference rejects with the
set-value-not-supported domain error. -/
theorem variables_vs_setVariable_unknown_handle (env : Env) (s : AdapterState)
    (ref : Nat) (filterArg : Option String) (start count : Option Nat) (nm vl : String)
    (h : HandleMap.get s.variableHandles ref = none) :
    variablesOp env s ref filterArg start count = .ok none ∧
    setVariableOp env s ref nm vl = .error DebugError.setValueNotSupported := by
  unfold variablesOp setVariableOp
  rw [h]
  exact ⟨rfl, rfl⟩

/-- C10 witness: in the initial state reference 5 is unknown; variables
resolves with no body and setVariable rejects. -/
theorem variables_vs_setVariable_unknown_handle_witness :
    HandleMap.get initialAdapterState.variableHandles 5 = none ∧
    variablesOp env0 initialAdapterState 5 none none none = .ok none ∧
    setVariableOp env0 initialAdapterState 5 "x" "1" = .error DebugError.setValueNotSupported := by
  have h := variables_vs_setVariable_unknown_handle env0 initialAdapterState 5 none none none
    "x" "1" (by decide)
  exact ⟨by decide, h.1, h.2⟩

/-- C9: remoteObjectToVariable maps a number described as Infinity to the value
Infinity, an undefined object to the value undefined, and a null-subtype
object to the value null, each with variablesReference 0 and no state change. -/
theorem remoteObjectToVariable_primitives :
    remoteObjectToVariable env0 initialAdapterState ""
        (some { type := "number", description := some "Infinity" })
      = (.ok { name := "", value := some "Infinity", variablesReference := 0 },
         initialAdapterState) ∧
    remoteObjectToVariable env0 initialAdapterState "" (some { type := "undefined" })
      = (.ok { name := "", value := some "undefined", variablesReference := 0 },
         initialAdapterState) ∧
    remoteObjectToVariable env0 initialAdapterState ""
        (some { type := "object", subtype := some "null" })
      = (.ok { name := "", value := some "null", variablesReference := 0 },
         initialAdapterState) := by
  refine ⟨?_, ?_, ?_⟩ <;> rfl

theorem respToOdpBps_spec (responses : List SetBreakpointResponse) : ∀ (s : AdapterState),
    (respToOdpBps s responses).1
      = amendedOdpBreakpoints s.breakpointIdHandles.nextHandle responses ∧
    (respToOdpBps s responses).2.committedBreakpointsByUrl = s.committedBreakpointsByUrl := by
  induction responses with
  | nil => intro s; exact ⟨rfl, rfl⟩
  | cons r rest ih =>
    intro s
    have ihs := ih { s with
      breakpointIdHandles := (HandleMap.create s.breakpointIdHandles r.breakpointId).2 }
    cases hloc : r.actualLocation with
    | none =>
      refine ⟨?_, ?_⟩
      · simp only [respToOdpBps, amendedOdpBreakpoints, hloc]
        rw [ihs.1]
        simp [HandleMap.create]
      · simp only [respToOdpBps, hloc]
        exact ihs.2
    | some loc =>
      refine ⟨?_, ?_⟩
      · simp only [respToOdpBps, amendedOdpBreakpoints, hloc]
        rw [ihs.1]
        simp [HandleMap.create]
      · simp only [respToOdpBps, hloc]
        exact ihs.2

/-- C2 counterexample: a failed add is swallowed into an empty object, which is
truthy, so the falsy-response guard does not fire; the empty object is
translated with a freshly minted id (for its absent breakpointId), not to an
id-less unverified breakpoint as claimed. -/
theorem chromeBreakpointResponses_empty_object_counterexample :
    (chromeBreakpointResponsesToODPBreakpoints initialAdapterState "http://localhost/app.js"
        [({} : SetBreakpointResponse)] [{ line := 1 }]).1
      = [{ id := some 1, verified := false }] ∧
    ({ id := some 1, verified := false : Breakpoint }).id ≠ none := by
  exact ⟨rfl, by decide⟩

/-- C2 amended: every response in the list, including a swallowed-error empty
object, is translated with a freshly minted handle id (the empty object's
absent breakpointId is inserted into the registry); a response is verified
with its line and column exactly when it carries an actualLocation; and the
committed list for the URL is set to the truthy breakpointIds only. -/
theorem chromeBreakpointResponses_translation_amended (s : AdapterState) (url : String)
    (responses : List SetBreakpointResponse) (reqBps : List SourceBreakpoint) :
    (chromeBreakpointResponsesToODPBreakpoints s url responses reqBps).1
      = amendedOdpBreakpoints s.breakpointIdHandles.nextHandle responses ∧
    mapGet (chromeBreakpointResponsesToODPBreakpoints s url responses reqBps).2.committedBreakpointsByUrl
        url
      = some (some (responses.filterMap
          (fun r => if jsTruthyOptStr r.breakpointId then r.breakpointId else none))) := by
  unfold chromeBreakpointResponsesToODPBreakpoints
  refine ⟨(respToOdpBps_spec responses _).1, ?_⟩
  rw [(respToOdpBps_spec responses _).2]
  exact mapGet_mapSet_self _ _ _

theorem isPrefixOf_append_left (l t : List Char) : l.isPrefixOf (l ++ t) = true := by
  induction l with
  | nil => cases t <;> rfl
  | cons c cs ih =>
    show (c == c && cs.isPrefixOf (cs ++ t)) = true
    simp [ih]

theorem jsStartsWith_append_left (p t : String) : jsStartsWith (p ++ t) p = true := by
  show p.data.isPrefixOf (p.data ++ t.data) = true
  exact isPrefixOf_append_left p.data t.data

theorem lstrip_append_left (p t : String) : lstrip (p ++ t) p = t := by
  unfold lstrip
  rw [jsStartsWith_append_left, if_pos rfl]
  show (⟨(p.data ++ t.data).drop p.data.length⟩ : String) = t
  rw [List.drop_left]

/-- C6 counterexample: a parsed script with no URL is recorded under
debugadapter://42, not under placeholder://42 as the claim states. -/
theorem placeholder_url_scheme_counterexample :
    mapGet (onScriptParsed env0 initialAdapterState scriptNoUrl).scriptsByUrl
      "placeholder://42" = none ∧
    mapGet (onScriptParsed env0 initialAdapterState scriptNoUrl).scriptsByUrl
      "debugadapter://42" = some { scriptId := "42", url := "debugadapter://42" } := by
  exact ⟨rfl, rfl⟩

/-- C6 amended: a parsed script with no URL is recorded, under both indices, at
the synthetic URL debugadapter:// followed by its scriptId; breakpoints on
such synthetic URLs are added with Debugger.setBreakpoint at an explicit
(scriptId, line, column) location, while every other URL is added with
Debugger.setBreakpointByUrl using the URL regex. -/
theorem synthetic_url_scheme_amended (env : Env) (s : AdapterState)
    (script : ScriptParsedEvent) (h : script.url = "") :
    mapGet (onScriptParsed env s script).scriptsByUrl
        (PLACEHOLDER_URL_PROTOCOL ++ script.scriptId)
      = some { script with url := PLACEHOLDER_URL_PROTOCOL ++ script.scriptId } ∧
    mapGet (onScriptParsed env s script).scriptsById script.scriptId
      = some { script with url := PLACEHOLDER_URL_PROTOCOL ++ script.scriptId } ∧
    (∀ bps, addBreakpointsRequests env (PLACEHOLDER_URL_PROTOCOL ++ script.scriptId) bps
      = bps.map (fun bp =>
          .setBreakpoint script.scriptId bp.line (bp.column.getD 0) bp.condition)) ∧
    (∀ url bps, jsStartsWith url PLACEHOLDER_URL_PROTOCOL = false →
      addBreakpointsRequests env url bps
        = bps.map (fun bp =>
            .setBreakpointByUrl (env.pathToRegex url) bp.line (bp.column.getD 0) bp.condition)) := by
  have hig : shouldIgnoreScript script = false := by
    simp only [shouldIgnoreScript, h]
    decide
  refine ⟨?_, ?_, ?_, ?_⟩
  · simp only [onScriptParsed, hig, h]
    simp only [Bool.false_eq_true, if_false, ne_eq, not_true_eq_false]
    exact mapGet_mapSet_self _ _ _
  · simp only [onScriptParsed, hig, h]
    simp only [Bool.false_eq_true, if_false, ne_eq, not_true_eq_false]
    exact mapGet_mapSet_self _ _ _
  · intro bps
    unfold addBreakpointsRequests
    rw [jsStartsWith_append_left, if_pos rfl, lstrip_append_left]
  · intro url bps hn
    unfold addBreakpointsRequests
    rw [hn, if_neg (by simp)]

/-- C6 amended witness: the concrete no-URL script with id 42 is recorded at
debugadapter://42, and a breakpoint added on that URL issues
Debugger.setBreakpoint at scriptId 42. -/
theorem synthetic_url_scheme_amended_witness :
    scriptNoUrl.url = "" ∧
    mapGet (onScriptParsed env0 initialAdapterState scriptNoUrl).scriptsByUrl
        (PLACEHOLDER_URL_PROTOCOL ++ scriptNoUrl.scriptId)
      = some { scriptNoUrl with url := PLACEHOLDER_URL_PROTOCOL ++ scriptNoUrl.scriptId } ∧
    addBreakpointsRequests env0 (PLACEHOLDER_URL_PROTOCOL ++ scriptNoUrl.scriptId)
        [{ line := 3 }]
      = [.setBreakpoint scriptNoUrl.scriptId 3 0 none] := by
  have h := synthetic_url_scheme_amended env0 initialAdapterState scriptNoUrl rfl
  refine ⟨rfl, h.1, ?_⟩
  rw [h.2.2.1 [{ line := 3 }]]
  rfl

/-- C8 counterexample: pause on a frame, take a stack trace (which lends frame
handle 1), then resume; the adapter is no longer paused (the stack is empty),
yet frame handle 1 still dereferences to the stale frame, so the claim that
all handles are invalid to dereference while not paused is wrong. -/
theorem handles_after_resume_counterexample :
    (runAdapter initialAdapterState traceC8).currentStack = none ∧
    HandleMap.get (runAdapter initialAdapterState traceC8).frameHandles 1
      = some (some frameF) := by
  exact ⟨rfl, rfl⟩

/-- C8 amended: while not paused (initially and right after a resumed event)
the current stack is empty, but a resumed event leaves the frame, variable and
source handle registries untouched; they are reset only by the next paused
event, so handles issued during an earlier pause may still dereference (to
stale values) while not paused. -/
theorem not_paused_stack_empty_amended (s : AdapterState) (n : PausedEvent) :
    initialAdapterState.currentStack = none ∧
    (onDebuggerResumedOp s).1.currentStack = none ∧
    (onDebuggerResumedOp s).1.frameHandles = s.frameHandles ∧
    (onDebuggerResumedOp s).1.variableHandles = s.variableHandles ∧
    (onDebuggerResumedOp s).1.sourceHandles = s.sourceHandles ∧
    (onDebuggerPausedSync s n).1.frameHandles = HandleMap.empty ∧
    (onDebuggerPausedSync s n).1.variableHandles = HandleMap.empty ∧
    (onDebuggerPausedSync s n).1.sourceHandles = HandleMap.empty := by
  refine ⟨rfl, ?_, ?_, ?_, ?_, ?_, ?_, ?_⟩
  all_goals simp only [onDebuggerResumedOp, onDebuggerPausedSync]
  all_goals repeat' split
  all_goals rfl

theorem mintUnverifiedBps_spec (bps : List SourceBreakpoint) :
    ∀ (s : AdapterState) (m : Option String),
    ((mintUnverifiedBps s m bps).1).map Breakpoint.id
      = (List.range bps.length).map (fun i => some (s.breakpointIdHandles.nextHandle + i)) ∧
    ((mintUnverifiedBps s m bps).1).map Breakpoint.verified
      = List.replicate bps.length false ∧
    ((mintUnverifiedBps s m bps).2).pendingBreakpointsByUrl = s.pendingBreakpointsByUrl := by
  induction bps with
  | nil => intro s m; exact ⟨rfl, rfl, rfl⟩
  | cons bp rest ih =>
    intro s m
    have ihs := ih { s with
      breakpointIdHandles := (HandleMap.create s.breakpointIdHandles
        (some (toString s.nextUnboundBreakpointId))).2,
      nextUnboundBreakpointId := s.nextUnboundBreakpointId + 1 } m
    refine ⟨?_, ?_, ?_⟩
    · simp only [mintUnverifiedBps, List.map_cons]
      rw [ihs.1]
      simp only [HandleMap.create, List.length_cons, List.range_succ_eq_map, List.map_cons,
        List.map_map, Nat.add_zero]
      congr 1
      exact List.map_congr_left fun a _ => by simp [Function.comp]; omega
    · simp only [mintUnverifiedBps, List.map_cons]
      rw [ihs.2.1]
      simp [List.replicate_succ]
    · simp only [mintUnverifiedBps]
      exact ihs.2.2

theorem unknownScriptOutcome_breakpoints (env : Env) (s : AdapterState)
    (args : SetBreakpointsArgs) :
    (unknownScriptOutcome env s args).1.breakpoints
      = (mintUnverifiedBps s (routeMessage (setBreakpointsRoute env s args)) args.breakpoints).1 := by
  unfold unknownScriptOutcome unverifiedBpResponse
  cases args.source.path <;> rfl

/-- C4 amended: when a setBreakpoints request takes one of the two graceful
not-known branches (path validation failed, or no target script URL was found
through a registered sourceReference handle), the result is the unverified
response: every returned breakpoint is unverified, the breakpoint ids are
freshly minted consecutive handles from the breakpoint-id registry (in
particular none of them was previously issued), and when the source has a
client path a pending record of the arguments and ids is stored under that
path, with exactly one pending record for the path (a new request replaces
the previous record).  A sourceReference without a registered handle instead
rejects the call uncaught and is excluded here.  (spec-modelled: the handle
registry itself is modelled from the spec, since utils.ReverseHandles is not
part of the sources.) -/
theorem setBreakpoints_unknown_script_pending (env : Env) (s : AdapterState)
    (args : SetBreakpointsArgs)
    (hroute : (setBreakpointsRoute env s args).isUnverifiedResponse = true)
    (hwf : handleMapWF s.breakpointIdHandles) :
    setBreakpointsNotKnownResult env s args = some (unknownScriptOutcome env s args) ∧
    ((unknownScriptOutcome env s args).1.breakpoints).map Breakpoint.verified
      = List.replicate args.breakpoints.length false ∧
    ((unknownScriptOutcome env s args).1.breakpoints).map Breakpoint.id
      = (List.range args.breakpoints.length).map
          (fun i => some (s.breakpointIdHandles.nextHandle + i)) ∧
    (∀ idv, some idv ∈ ((unknownScriptOutcome env s args).1.breakpoints).map Breakpoint.id →
      HandleMap.get s.breakpointIdHandles idv = none) ∧
    (∀ p, args.source.path = some p →
      mapGet (unknownScriptOutcome env s args).2.pendingBreakpointsByUrl p
        = some ⟨args, ((unknownScriptOutcome env s args).1.breakpoints).filterMap Breakpoint.id⟩ ∧
      countKey (unknownScriptOutcome env s args).2.pendingBreakpointsByUrl p = 1) := by
  have hmint := mintUnverifiedBps_spec args.breakpoints s
    (routeMessage (setBreakpointsRoute env s args))
  have hbp := unknownScriptOutcome_breakpoints env s args
  refine ⟨?_, ?_, ?_, ?_, ?_⟩
  · cases hr : setBreakpointsRoute env s args with
    | known u => rw [hr] at hroute; simp [SetBpRoute.isUnverifiedResponse] at hroute
    | danglingSourceRef => rw [hr] at hroute; simp [SetBpRoute.isUnverifiedResponse] at hroute
    | errorPath m =>
      unfold setBreakpointsNotKnownResult unknownScriptOutcome
      rw [hr]
    | noScript =>
      unfold setBreakpointsNotKnownResult unknownScriptOutcome
      rw [hr]
  · rw [hbp]; exact hmint.2.1
  · rw [hbp]; exact hmint.1
  · intro idv hmem
    rw [hbp, hmint.1] at hmem
    obtain ⟨i, hi, heq⟩ := List.mem_map.mp hmem
    have : idv = s.breakpointIdHandles.nextHandle + i := by
      exact (Option.some.injEq _ _ ▸ heq).symm
    exact handleMapGet_of_le s.breakpointIdHandles hwf idv (by omega)
  · intro p hp
    unfold unknownScriptOutcome unverifiedBpResponse at *
    rw [hp] at *
    refine ⟨?_, ?_⟩
    · exact mapGet_mapSet_self _ _ _
    · exact countKey_mapSet_self _ _ _

/-- C4 counterexample: a request whose source names sourceReference 3, which
has no registered source handle, has no known target script; yet the source
dereferences the missing handle (handle.scriptId on undefined) and the
TypeError is not caught by the rejection handler attached as the second
argument of the same then, so the call rejects: no unverified response is
returned, no ids are minted and no pending record is stored, contradicting
the claim at this input. -/
theorem setBreakpoints_dangling_sourceReference_counterexample :
    setBreakpointsRoute env0 initialAdapterState argsDanglingRef
      = SetBpRoute.danglingSourceRef ∧
    setBreakpointsNotKnownResult env0 initialAdapterState argsDanglingRef = none := by
  exact ⟨rfl, rfl⟩

/-- C4 witness: a concrete request for /x/foo.js whose generated path the
source-map transformer does not know takes a graceful not-known route; the
response is one unverified breakpoint with the fresh id 1 and the pending
record for /x/foo.js stores the arguments with ids [1]. -/
theorem setBreakpoints_unknown_script_pending_witness :
    (setBreakpointsRoute env0 initialAdapterState argsFooJs).isUnverifiedResponse = true ∧
    handleMapWF initialAdapterState.breakpointIdHandles ∧
    ((unknownScriptOutcome env0 initialAdapterState argsFooJs).1.breakpoints).map
        Breakpoint.verified = [false] ∧
    mapGet (unknownScriptOutcome env0 initialAdapterState argsFooJs).2.pendingBreakpointsByUrl
        "/x/foo.js" = some ⟨argsFooJs, [1]⟩ := by
  have h := setBreakpoints_unknown_script_pending env0 initialAdapterState argsFooJs rfl
    (by decide)
  refine ⟨rfl, by decide, ?_, ?_⟩
  · have h2 := h.2.1
    simpa using h2
  · have h5 := (h.2.2.2.2 "/x/foo.js" rfl).1
    rw [h5]
    decide
